import Mathlib

/-!
Verification of the AMP model-routing and fallback engine of CLIProxyAPI
(`internal/api/modules/amp/fallback_handlers_cn.go`).

The Go source is shallowly embedded below:
- JSON request bodies become an inductive `Json` value (`none` standing for an
  unparseable body); the `gjson`/`sjson` accesses on the top-level `model`
  field become association-list operations.
- The `FallbackHandler` struct keeps its injected collaborators as function
  fields: `modelMapper` (nil-able, hence `Option`), `getProviderName`
  (`util.GetProviderName`), the live `forceModelMappings` flag read (the Go
  code reads `fh.forceModelMappings != nil && fh.forceModelMappings()`, which
  collapses to one `Bool` per request), and `hasProxy` (`fh.getProxy() != nil`).
- `WrapHandler`'s per-request routing core becomes the pure classification
  function `WrapHandlerDecide`; the observable effects (which body is handed
  downstream, whether the wrapped handler or the reverse proxy runs) are
  recorded in a `RouteDecision`.
-/

/-- Minimal JSON value; `jobj` keeps fields in document order as an
association list, which is how the top-level `model` lookups and rewrites of
`gjson.GetBytes`/`sjson.SetBytes` behave on the bodies this module touches. -/
inductive Json where
  | jnull : Json
  | jbool : Bool → Json
  | jnum : Int → Json
  | jstr : String → Json
  | jarr : List Json → Json
  | jobj : List (String × Json) → Json

/-- First binding of `key` in an association list of JSON object fields. -/
def lookupField (fields : List (String × Json)) (key : String) : Option Json :=
  match fields with
  | [] => none
  | (k, v) :: rest => if k = key then some v else lookupField rest key

/-- Replace the first binding of `key` (the write path of `sjson.SetBytes`
when the key already exists; `rewriteModelInRequest` only writes when it does). -/
def setFieldValue (fields : List (String × Json)) (key : String) (v : Json) :
    List (String × Json) :=
  match fields with
  | [] => []
  | (k, w) :: rest =>
    if k = key then (k, v) :: rest else (k, w) :: setFieldValue rest key v

/-- `gjson.GetBytes(body, "model")`-style top-level field access; a `none`
body (unparseable bytes) has no fields. -/
def getField (body : Option Json) (key : String) : Option Json :=
  match body with
  | some (Json.jobj fields) => lookupField fields key
  | _ => none

/-- `rewriteModelInRequest` (fallback_handlers_cn.go:337-349): if the body has
no top-level `model` field the body is returned unchanged; otherwise the field
value is replaced by `newModel`. -/
def rewriteModelInRequest (body : Option Json) (newModel : String) : Option Json :=
  if (getField body "model").isSome then
    match body with
    | some (Json.jobj fields) => some (Json.jobj (setFieldValue fields "model" (Json.jstr newModel)))
    | b => b
  else body

/-- Result of `thinking.ParseSuffix`; field names follow the Go struct used at
fallback_handlers_cn.go:171-176. -/
structure SuffixResult where
  ModelName : String
  HasSuffix : Bool
  RawSuffix : String
deriving DecidableEq, Repr

/-- Index of the last occurrence of `c` in `cs`. -/
def lastIdxOf (cs : List Char) (c : Char) : Option Nat :=
  match cs with
  | [] => none
  | x :: rest =>
    match lastIdxOf rest c with
    | some i => some (i + 1)
    | none => if x = c then some 0 else none

/-- Modelled from the spec: `internal/thinking.ParseSuffix` is not among the
shown sources. Spec §4.1: "Parses a trailing `(token)` pattern anchored at the
end of the string; if absent, returns the input unchanged with no suffix", and
§8 requires `normalize(base ++ "(" ++ suffix ++ ")") = {base, suffix}`, which
for names containing several `(` pins the split to the last `(` before the
closing `)`. -/
def ParseSuffix (s : String) : SuffixResult :=
  match s.data.getLast? with
  | some ')' =>
    let inner := s.data.dropLast
    match lastIdxOf inner '(' with
    | some i =>
      { ModelName := ⟨inner.take i⟩, HasSuffix := true, RawSuffix := ⟨inner.drop (i + 1)⟩ }
    | none => { ModelName := s, HasSuffix := false, RawSuffix := "" }
  | _ => { ModelName := s, HasSuffix := false, RawSuffix := "" }

/-- The `thinkingSuffix` local of `WrapHandler`
(fallback_handlers_cn.go:173-176): the original parenthesized suffix, or `""`. -/
def thinkingSuffixOf (modelName : String) : String :=
  if (ParseSuffix modelName).HasSuffix then "(" ++ (ParseSuffix modelName).RawSuffix ++ ")" else ""

/-- Whitespace as trimmed by Go's `strings.TrimSpace` (ASCII whitespace plus
NEL and NBSP, the Latin-1 cases Go special-cases; wider Unicode space classes
never arise in model names here). -/
def isGoSpace (c : Char) : Bool :=
  c = ' ' || c = '\t' || c = '\n' || c = '\r' || c = '\x0b' || c = '\x0c' ||
    c = '\u0085' || c = ' '

/-- `strings.TrimSpace`. -/
def trimSpace (s : String) : String :=
  ⟨((s.data.dropWhile isGoSpace).reverse.dropWhile isGoSpace).reverse⟩

/-- The `FallbackHandler` struct (fallback_handlers_cn.go:96-103) together
with the injected collaborators its per-request code reads:
`hasProxy` is `fh.getProxy() != nil`; `modelMapper` is `nil` or the
`ModelMapper.MapModel` method; `forceModelMappings` is the per-request read
`fh.forceModelMappings != nil && fh.forceModelMappings()` (line 223);
`getProviderName` is the `util.GetProviderName` collaborator. -/
structure FallbackHandler where
  hasProxy : Bool
  modelMapper : Option (String → String)
  forceModelMappings : Bool
  getProviderName : String → List String

/-- The mapping-table consultation of `resolveMappedModel`
(fallback_handlers_cn.go:186-191): look up the raw request model first, and
only if that yields the empty string look up the normalized base name. -/
def mappedLookup (fh : FallbackHandler) (modelName normalizedModel : String) : String :=
  match fh.modelMapper with
  | none => ""
  | some mapModel =>
    if mapModel modelName = "" then mapModel normalizedModel else mapModel modelName

/-- Suffix re-attachment step of `resolveMappedModel`
(fallback_handlers_cn.go:198-205): keep the caller's thinking suffix unless
the mapped model already declares its own. -/
def attachThinkingSuffix (mappedModel thinkingSuffix : String) : String :=
  if thinkingSuffix ≠ "" ∧ (ParseSuffix mappedModel).HasSuffix = false then
    mappedModel ++ thinkingSuffix
  else mappedModel

/-- Tail of `resolveMappedModel` after the table lookup
(fallback_handlers_cn.go:193-214): trim, reject empty targets, re-attach the
suffix, and reject targets whose base name has no providers. -/
def resolveFromMapped (fh : FallbackHandler) (mappedModelRaw thinkingSuffix : String) :
    Option (String × List String) :=
  let mappedModel := trimSpace mappedModelRaw
  if mappedModel = "" then none
  else
    let mappedModel2 := attachThinkingSuffix mappedModel thinkingSuffix
    let mappedProviders := fh.getProviderName ((ParseSuffix mappedModel2).ModelName)
    if mappedProviders = [] then none
    else some (mappedModel2, mappedProviders)

/-- `resolveMappedModel` (fallback_handlers_cn.go:180-215): the closure over
`modelName`, `normalizedModel` and `thinkingSuffix` made explicit. Returns the
mapped model plus its providers, or `none` for "no usable mapping". -/
def resolveMappedModel (fh : FallbackHandler) (modelName normalizedModel thinkingSuffix : String) :
    Option (String × List String) :=
  match fh.modelMapper with
  | none => none
  | some _ => resolveFromMapped fh (mappedLookup fh modelName normalizedModel) thinkingSuffix

/-- The four routing outcomes (fallback_handlers_cn.go:23-32). -/
inductive AmpRouteType where
  | localProvider : AmpRouteType
  | modelMapping : AmpRouteType
  | ampCredits : AmpRouteType
  | noProvider : AmpRouteType
deriving DecidableEq, Repr

/-- Observable result of one run of the `WrapHandler` closure past the
model-extraction step: the classification plus the effects the code performs
(`outBody` is the body bytes restored into the request before the downstream
handler or the reverse proxy runs; `handlerCalled`/`proxied` record which one
runs; `responseRewriter` records whether `c.Writer` was wrapped). -/
structure RouteDecision where
  routeType : AmpRouteType
  requestedModel : String
  resolvedModel : String
  providerName : String
  providers : List String
  usedMapping : Bool
  outBody : Option Json
  handlerCalled : Bool
  proxied : Bool
  responseRewriter : Bool

/-- The tail of `WrapHandler` (fallback_handlers_cn.go:262-311): terminal
proxy fallback, then classification of the request into its route.
`step` is `(resolvedModel, usedMapping, providers, bodyBytes)` as mutated by
the preceding branch code. -/
def finishRoute (fh : FallbackHandler) (modelName : String)
    (step : String × Bool × List String × Option Json) : RouteDecision :=
  match step with
  | (resolvedModel, usedMapping, providers, outBody) =>
    if providers = [] ∧ fh.hasProxy = true then
      -- lines 263-275: no providers and a proxy: forward to ampcode.com.
      { routeType := AmpRouteType.ampCredits, requestedModel := modelName,
        resolvedModel := resolvedModel, providerName := "", providers := providers,
        usedMapping := usedMapping, outBody := outBody, handlerCalled := false,
        proxied := true, responseRewriter := false }
    else
      let providerName := match providers with | [] => "" | p :: _ => p
      if usedMapping = true then
        -- lines 287-299: mapping applied: wrap the writer, filter the beta
        -- header, run the handler, flush the rewriter.
        { routeType := AmpRouteType.modelMapping, requestedModel := modelName,
          resolvedModel := resolvedModel, providerName := providerName,
          providers := providers, usedMapping := usedMapping, outBody := outBody,
          handlerCalled := true, proxied := false, responseRewriter := true }
      else if providers ≠ [] then
        -- lines 300-306: local provider.
        { routeType := AmpRouteType.localProvider, requestedModel := modelName,
          resolvedModel := resolvedModel, providerName := providerName,
          providers := providers, usedMapping := usedMapping, outBody := outBody,
          handlerCalled := true, proxied := false, responseRewriter := false }
      else
        -- lines 277-279 and 307-311: no provider, no mapping, no proxy: the
        -- NO_PROVIDER record is logged and the wrapped handler produces the
        -- error response from the untouched body.
        { routeType := AmpRouteType.noProvider, requestedModel := modelName,
          resolvedModel := resolvedModel, providerName := providerName,
          providers := providers, usedMapping := usedMapping, outBody := outBody,
          handlerCalled := true, proxied := false, responseRewriter := false }

/-- The routing core of `WrapHandler` (fallback_handlers_cn.go:170-311) for an
already-extracted `modelName`: normalization, the force-priority /
default-priority branch pair (lines 225-260), then `finishRoute`. -/
def WrapHandlerDecide (fh : FallbackHandler) (modelName : String) (body : Option Json) :
    RouteDecision :=
  let normalizedModel := (ParseSuffix modelName).ModelName
  let mres := resolveMappedModel fh modelName normalizedModel (thinkingSuffixOf modelName)
  let step : String × Bool × List String × Option Json :=
    if fh.forceModelMappings = true then
      -- lines 225-242: mapping first, local providers as fallthrough.
      match mres with
      | some (mappedModel, mappedProviders) =>
        (mappedModel, true, mappedProviders, rewriteModelInRequest body mappedModel)
      | none => (normalizedModel, false, fh.getProviderName normalizedModel, body)
    else
      -- lines 243-260: local providers first, mapping as fallback.
      if fh.getProviderName normalizedModel = [] then
        match mres with
        | some (mappedModel, mappedProviders) =>
          (mappedModel, true, mappedProviders, rewriteModelInRequest body mappedModel)
        | none => (normalizedModel, false, fh.getProviderName normalizedModel, body)
      else (normalizedModel, false, fh.getProviderName normalizedModel, body)
  finishRoute fh modelName step

/-- `extractModelFromRequest`, second convention
(fallback_handlers_cn.go:368-374): the `:action` route parameter as
`{model}:{method}`; `parts[0]` of `strings.Split(action, ":")` is the prefix
of `action` before the first colon (the whole string when no colon occurs). -/
def extractFromAction (action : String) : Option String :=
  if action ≠ "" then
    let head : String := ⟨action.data.takeWhile (fun c => c ≠ ':')⟩
    if head ≠ "" then some head else none
  else none

/-- Index of the first occurrence of `needle` in `haystack`
(`strings.Index`), counted in characters; the strings involved are ASCII so
character and byte offsets agree. -/
def idxOfSub (needle : List Char) : List Char → Option Nat
  | [] => if needle = [] then some 0 else none
  | c :: rest =>
    if needle.isPrefixOf (c :: rest) then some 0
    else (idxOfSub needle rest).map (· + 1)

/-- `extractModelFromRequest`, third convention
(fallback_handlers_cn.go:376-387): a `*path` route parameter containing
`/models/{model}:{method}`; the model is the non-empty substring between the
first `/models/` and the following colon. -/
def extractFromPath (path : String) : Option String :=
  if path ≠ "" then
    match idxOfSub "/models/".data path.data with
    | some idx =>
      let modelPart := path.data.drop (idx + 8)
      match modelPart.findIdx? (fun c => c = ':') with
      | some colonIdx => if colonIdx > 0 then some ⟨modelPart.take colonIdx⟩ else none
      | none => none
    | none => none
  else none

/-- `extractModelFromRequest` (fallback_handlers_cn.go:359-390): a top-level
string-typed `model` JSON field wins; otherwise the `:action` hint, then the
`*path` hint; `""` signals "no model, skip routing". -/
def extractModelFromRequest (body : Option Json) (actionParam pathParam : String) : String :=
  match getField body "model" with
  | some (Json.jstr s) => s
  | _ =>
    match extractFromAction actionParam with
    | some m => m
    | none =>
      match extractFromPath pathParam with
      | some m => m
      | none => ""

/-- How one call of the wrapped downstream handler ends: a Go `return`
(normal, covering early and error returns) or a panic that unwinds through
the caller. -/
inductive HandlerOutcome where
  | normal : HandlerOutcome
  | panicked : HandlerOutcome
deriving DecidableEq, Repr

/-- Observable state of the `ResponseRewriter` wrapper for the flush
discipline: how many times `Flush` has run. -/
structure RewriterState where
  flushes : Nat
deriving DecidableEq, Repr

/-- The model-mapping branch's handler invocation
(fallback_handlers_cn.go:297-298): `handler(c)` followed by
`rewriter.Flush()`. The `Flush` call is a plain statement, not deferred, so
under Go panic semantics it runs only when `handler` returns normally; a
panic unwinds past it with the rewriter state untouched. -/
def runMappingHandlerCall (handler : RewriterState → HandlerOutcome × RewriterState)
    (s : RewriterState) : HandlerOutcome × RewriterState :=
  match handler s with
  | (HandlerOutcome.normal, s1) => (HandlerOutcome.normal, { flushes := s1.flushes + 1 })
  | (HandlerOutcome.panicked, s1) => (HandlerOutcome.panicked, s1)

/-! ## Test fixtures -/

/-- Mapping table with `gpt-5 -> local-model-a` and nothing else. -/
def mapperFix : String → String := fun x => if x = "gpt-5" then "local-model-a" else ""

/-- Provider registry: one provider for `gpt-5` and one for `local-model-a`. -/
def gpnFix : String → List String :=
  fun b => if b = "gpt-5" then ["claude-oauth"]
    else if b = "local-model-a" then ["gemini-oauth"] else []

/-- Whitespace mapping fixture: the raw (suffixed) name maps to a blank, every
other name (the base name included) maps to a live target. -/
def mapperWsFix : String → String := fun x => if x = "m-raw(high)" then " " else "target-a"

/-- Empty-string-on-raw mapping fixture. -/
def mapperEmptyRawFix : String → String := fun x => if x = "m-raw(high)" then "" else "target-a"

/-- Provider registry that serves everything (so the masked base mapping would
have been usable). -/
def gpnAllFix : String → List String := fun _ => ["p1"]

example : trimSpace "  a b " = "a b" := by decide
example : ParseSuffix "gpt-5(xhigh)" = ⟨"gpt-5", true, "xhigh"⟩ := by decide
example : ParseSuffix "gpt-5" = ⟨"gpt-5", false, ""⟩ := by decide
example : ParseSuffix "a(b)(c)" = ⟨"a(b)", true, "c"⟩ := by decide

/-! ## Helper lemmas -/

theorem parenWrap_ne_empty (s : String) : ("(" ++ s ++ ")") ≠ "" := by
  intro h
  have h2 := congrArg String.length h
  simp [String.length_append] at h2
  exact absurd h2.2 (by decide)

/-- A successful resolution always carries a non-empty provider list
(fallback_handlers_cn.go:210-212 returns `nil` otherwise). -/
theorem resolveFromMapped_providers_ne_nil (fh : FallbackHandler)
    (raw suf mm : String) (provs : List String)
    (h : resolveFromMapped fh raw suf = some (mm, provs)) : provs ≠ [] := by
  simp only [resolveFromMapped] at h
  split at h
  · simp at h
  · split at h
    · simp at h
    · simp only [Option.some.injEq, Prod.mk.injEq] at h
      rename_i hne
      exact h.2 ▸ hne

theorem resolveMappedModel_providers_ne_nil (fh : FallbackHandler)
    (modelName normalizedModel suf mm : String) (provs : List String)
    (h : resolveMappedModel fh modelName normalizedModel suf = some (mm, provs)) :
    provs ≠ [] := by
  unfold resolveMappedModel at h
  split at h
  · exact absurd h (by simp)
  · exact resolveFromMapped_providers_ne_nil fh _ suf mm provs h

/-- When `resolveMappedModel` succeeds, both decision modes build the
model-mapping route: body rewritten, writer wrapped, handler called.
In force-priority mode this is lines 225-237; in default mode it additionally
needs the local lookup to have come up empty (lines 247-258). -/
theorem WrapHandlerDecide_mapping (fh : FallbackHandler) (m : String) (body : Option Json)
    (mm : String) (provs : List String)
    (hres : resolveMappedModel fh m (ParseSuffix m).ModelName (thinkingSuffixOf m) =
      some (mm, provs))
    (hmode : fh.forceModelMappings = true ∨
      fh.getProviderName ((ParseSuffix m).ModelName) = []) :
    WrapHandlerDecide fh m body =
      { routeType := AmpRouteType.modelMapping, requestedModel := m, resolvedModel := mm,
        providerName := (match provs with | [] => "" | p :: _ => p), providers := provs,
        usedMapping := true, outBody := rewriteModelInRequest body mm, handlerCalled := true,
        proxied := false, responseRewriter := true } := by
  have hprovs : provs ≠ [] := resolveMappedModel_providers_ne_nil fh m _ _ mm provs hres
  simp only [WrapHandlerDecide, hres]
  rcases hmode with hforce | hlocal
  · simp only [hforce, if_pos rfl, finishRoute]
    simp [hprovs]
    cases provs with
    | nil => exact absurd rfl hprovs
    | cons p ps => rfl
  · cases hforce : fh.forceModelMappings
    · simp only [Bool.false_eq_true, if_neg, hlocal, if_pos rfl, finishRoute, reduceCtorEq]
      simp [hprovs]
      cases provs with
      | nil => exact absurd rfl hprovs
      | cons p ps => rfl
    · simp only [if_pos rfl, finishRoute]
      simp [hprovs]
      cases provs with
      | nil => exact absurd rfl hprovs
      | cons p ps => rfl

/-- When resolution fails (or is skipped because local providers exist), a
non-empty local lookup yields the local-provider route with the body passed
through untouched. -/
theorem WrapHandlerDecide_local (fh : FallbackHandler) (m : String) (body : Option Json)
    (hlocal : fh.getProviderName ((ParseSuffix m).ModelName) ≠ [])
    (hmode : fh.forceModelMappings = false ∨
      resolveMappedModel fh m (ParseSuffix m).ModelName (thinkingSuffixOf m) = none) :
    WrapHandlerDecide fh m body =
      { routeType := AmpRouteType.localProvider, requestedModel := m,
        resolvedModel := (ParseSuffix m).ModelName,
        providerName := (match fh.getProviderName ((ParseSuffix m).ModelName) with
          | [] => "" | p :: _ => p),
        providers := fh.getProviderName ((ParseSuffix m).ModelName),
        usedMapping := false, outBody := body, handlerCalled := true,
        proxied := false, responseRewriter := false } := by
  simp only [WrapHandlerDecide]
  rcases hmode with hforce | hres
  · simp only [hforce, Bool.false_eq_true, if_neg, if_neg hlocal, finishRoute, reduceCtorEq]
    simp [hlocal]
  · cases hforce : fh.forceModelMappings
    · simp only [Bool.false_eq_true, if_neg, if_neg hlocal, finishRoute, reduceCtorEq]
      simp [hlocal]
    · simp only [hres, if_pos rfl, finishRoute]
      simp [hlocal]

/-- Looking up a key after `setFieldValue` on that key returns the new value,
provided the key was present. -/
theorem lookupField_setFieldValue (fields : List (String × Json)) (key : String) (v w : Json)
    (h : lookupField fields key = some v) :
    lookupField (setFieldValue fields key w) key = some w := by
  induction fields with
  | nil => simp [lookupField] at h
  | cons kv rest ih =>
    obtain ⟨k, x⟩ := kv
    by_cases hk : k = key
    · simp [lookupField, setFieldValue, hk]
    · have hs : setFieldValue ((k, x) :: rest) key w = (k, x) :: setFieldValue rest key w := by
        simp [setFieldValue, hk]
      rw [hs]
      simp only [lookupField, if_neg hk] at h ⊢
      exact ih h

/-- When the body has a top-level `model` field, `rewriteModelInRequest`
makes that field read as the new model. -/
theorem getField_rewriteModelInRequest (body : Option Json) (mm : String)
    (h : (getField body "model").isSome = true) :
    getField (rewriteModelInRequest body mm) "model" = some (Json.jstr mm) := by
  cases body with
  | none => simp [getField] at h
  | some j =>
    cases j with
    | jobj fields =>
      simp only [getField] at h
      obtain ⟨v, hv⟩ := Option.isSome_iff_exists.mp h
      simp only [rewriteModelInRequest, getField, hv, Option.isSome_some, if_pos]
      exact lookupField_setFieldValue fields "model" v _ hv
    | jnull => simp [getField] at h
    | jbool b => simp [getField] at h
    | jnum n => simp [getField] at h
    | jstr s => simp [getField] at h
    | jarr xs => simp [getField] at h

/-- When neither path finds providers, the request is proxied to ampcode.com
when a proxy exists (lines 263-275) and classified NO_PROVIDER with the
wrapped handler run on the untouched body otherwise (lines 277-311). -/
theorem WrapHandlerDecide_no_providers (fh : FallbackHandler) (m : String) (body : Option Json)
    (hres : resolveMappedModel fh m (ParseSuffix m).ModelName (thinkingSuffixOf m) = none)
    (hlocal : fh.getProviderName ((ParseSuffix m).ModelName) = []) :
    WrapHandlerDecide fh m body =
      { routeType := (if fh.hasProxy then AmpRouteType.ampCredits else AmpRouteType.noProvider),
        requestedModel := m, resolvedModel := (ParseSuffix m).ModelName,
        providerName := "", providers := [], usedMapping := false, outBody := body,
        handlerCalled := fh.hasProxy = false, proxied := fh.hasProxy,
        responseRewriter := false } := by
  simp only [WrapHandlerDecide, hres]
  cases hforce : fh.forceModelMappings <;>
    cases hproxy : fh.hasProxy <;>
      simp [finishRoute, hlocal, hproxy]

/-! ## Claims -/

/-- Claim C1: for a request whose model has both a configured local provider
and a usable mapping, the route is MODEL_MAPPING when the force-priority flag
reads true and LOCAL_PROVIDER when it reads false. -/
theorem C1_force_priority_flips (hasProxy : Bool) (mapper : Option (String → String))
    (gpn : String → List String) (m : String) (body : Option Json)
    (mm : String) (provs : List String)
    (hlocal : gpn ((ParseSuffix m).ModelName) ≠ [])
    (hmap : resolveMappedModel ⟨hasProxy, mapper, true, gpn⟩ m ((ParseSuffix m).ModelName)
      (thinkingSuffixOf m) = some (mm, provs)) :
    (WrapHandlerDecide ⟨hasProxy, mapper, true, gpn⟩ m body).routeType =
      AmpRouteType.modelMapping ∧
    (WrapHandlerDecide ⟨hasProxy, mapper, false, gpn⟩ m body).routeType =
      AmpRouteType.localProvider := by
  constructor
  · rw [WrapHandlerDecide_mapping ⟨hasProxy, mapper, true, gpn⟩ m body mm provs hmap
      (Or.inl rfl)]
  · rw [WrapHandlerDecide_local ⟨hasProxy, mapper, false, gpn⟩ m body hlocal (Or.inl rfl)]

theorem C1_witness :
    (WrapHandlerDecide ⟨false, some mapperFix, true, gpnFix⟩ "gpt-5" none).routeType =
      AmpRouteType.modelMapping ∧
    (WrapHandlerDecide ⟨false, some mapperFix, false, gpnFix⟩ "gpt-5" none).routeType =
      AmpRouteType.localProvider :=
  C1_force_priority_flips false (some mapperFix) gpnFix "gpt-5" none
    "local-model-a" ["gemini-oauth"] (by decide) (by decide)

/-- Claim C2: a mapping whose (suffix-reattached) target has zero available
providers makes the resolver return nothing, and the outcome is never
MODEL_MAPPING. -/
theorem C2_unreachable_target_never_maps (fh : FallbackHandler) (m : String) (body : Option Json)
    (h : fh.getProviderName ((ParseSuffix (attachThinkingSuffix
        (trimSpace (mappedLookup fh m ((ParseSuffix m).ModelName)))
        (thinkingSuffixOf m))).ModelName) = []) :
    resolveMappedModel fh m ((ParseSuffix m).ModelName) (thinkingSuffixOf m) = none ∧
    (WrapHandlerDecide fh m body).routeType ≠ AmpRouteType.modelMapping := by
  have hres : resolveMappedModel fh m ((ParseSuffix m).ModelName) (thinkingSuffixOf m) = none := by
    unfold resolveMappedModel
    split
    · rfl
    · simp only [resolveFromMapped]
      split
      · rfl
      · simp [h]
  refine ⟨hres, ?_⟩
  cases hlocal : fh.getProviderName ((ParseSuffix m).ModelName) with
  | nil =>
    rw [WrapHandlerDecide_no_providers fh m body hres hlocal]
    cases hproxy : fh.hasProxy <;> simp [hproxy]
  | cons p ps =>
    rw [WrapHandlerDecide_local fh m body (by simp [hlocal]) (Or.inr hres)]
    simp

theorem C2_witness :
    resolveMappedModel ⟨false, some (fun x => if x = "m1" then "dead-model" else ""), false,
      fun _ => []⟩ "m1" ((ParseSuffix "m1").ModelName) (thinkingSuffixOf "m1") = none ∧
    (WrapHandlerDecide ⟨false, some (fun x => if x = "m1" then "dead-model" else ""), false,
      fun _ => []⟩ "m1" none).routeType ≠ AmpRouteType.modelMapping :=
  C2_unreachable_target_never_maps
    ⟨false, some (fun x => if x = "m1" then "dead-model" else ""), false, fun _ => []⟩
    "m1" none (by decide)

/-- Claim C3: with the force-priority flag true and no usable mapping, the
engine still performs the local-provider lookup on the normalized base name;
a local provider yields LOCAL_PROVIDER rather than an immediate fallback. -/
theorem C3_force_unusable_mapping_falls_through (fh : FallbackHandler) (m : String)
    (body : Option Json)
    (_hforce : fh.forceModelMappings = true)
    (hres : resolveMappedModel fh m ((ParseSuffix m).ModelName) (thinkingSuffixOf m) = none)
    (hlocal : fh.getProviderName ((ParseSuffix m).ModelName) ≠ []) :
    (WrapHandlerDecide fh m body).routeType = AmpRouteType.localProvider ∧
    (WrapHandlerDecide fh m body).providers = fh.getProviderName ((ParseSuffix m).ModelName) ∧
    (WrapHandlerDecide fh m body).proxied = false := by
  rw [WrapHandlerDecide_local fh m body hlocal (Or.inr hres)]
  exact ⟨rfl, rfl, rfl⟩

theorem C3_witness :
    (WrapHandlerDecide ⟨true, none, true, gpnFix⟩ "gpt-5" none).routeType =
      AmpRouteType.localProvider ∧
    (WrapHandlerDecide ⟨true, none, true, gpnFix⟩ "gpt-5" none).providers =
      gpnFix ((ParseSuffix "gpt-5").ModelName) ∧
    (WrapHandlerDecide ⟨true, none, true, gpnFix⟩ "gpt-5" none).proxied = false :=
  C3_force_unusable_mapping_falls_through ⟨true, none, true, gpnFix⟩ "gpt-5" none
    rfl rfl (by decide)

/-- Claim C4: on every MODEL_MAPPING route the body handed to the downstream
handler is the original body with its `model` field rewritten to the resolved
model (a no-op when the body has no `model` field). -/
theorem C4_mapping_rewrites_body (fh : FallbackHandler) (m : String) (body : Option Json)
    (h : (WrapHandlerDecide fh m body).routeType = AmpRouteType.modelMapping) :
    (WrapHandlerDecide fh m body).outBody =
      rewriteModelInRequest body ((WrapHandlerDecide fh m body).resolvedModel) ∧
    ((getField body "model").isSome = true →
      getField ((WrapHandlerDecide fh m body).outBody) "model" =
        some (Json.jstr ((WrapHandlerDecide fh m body).resolvedModel))) := by
  cases hres : resolveMappedModel fh m ((ParseSuffix m).ModelName) (thinkingSuffixOf m) with
  | some val =>
    obtain ⟨mm, provs⟩ := val
    cases hforce : fh.forceModelMappings with
    | true =>
      rw [WrapHandlerDecide_mapping fh m body mm provs hres (Or.inl hforce)]
      exact ⟨rfl, fun hsome => getField_rewriteModelInRequest body mm hsome⟩
    | false =>
      cases hlocal : fh.getProviderName ((ParseSuffix m).ModelName) with
      | nil =>
        rw [WrapHandlerDecide_mapping fh m body mm provs hres (Or.inr hlocal)]
        exact ⟨rfl, fun hsome => getField_rewriteModelInRequest body mm hsome⟩
      | cons p ps =>
        rw [WrapHandlerDecide_local fh m body (by simp [hlocal]) (Or.inl hforce)] at h
        simp at h
  | none =>
    cases hlocal : fh.getProviderName ((ParseSuffix m).ModelName) with
    | nil =>
      rw [WrapHandlerDecide_no_providers fh m body hres hlocal] at h
      cases hproxy : fh.hasProxy <;> simp [hproxy] at h
    | cons p ps =>
      rw [WrapHandlerDecide_local fh m body (by simp [hlocal]) (Or.inr hres)] at h
      simp at h

theorem C4_witness :
    (WrapHandlerDecide ⟨false, some mapperFix, true, gpnFix⟩ "gpt-5"
        (some (Json.jobj [("model", Json.jstr "gpt-5")]))).outBody =
      rewriteModelInRequest (some (Json.jobj [("model", Json.jstr "gpt-5")]))
        ((WrapHandlerDecide ⟨false, some mapperFix, true, gpnFix⟩ "gpt-5"
          (some (Json.jobj [("model", Json.jstr "gpt-5")]))).resolvedModel) ∧
    ((getField (some (Json.jobj [("model", Json.jstr "gpt-5")])) "model").isSome = true →
      getField ((WrapHandlerDecide ⟨false, some mapperFix, true, gpnFix⟩ "gpt-5"
          (some (Json.jobj [("model", Json.jstr "gpt-5")]))).outBody) "model" =
        some (Json.jstr ((WrapHandlerDecide ⟨false, some mapperFix, true, gpnFix⟩ "gpt-5"
          (some (Json.jobj [("model", Json.jstr "gpt-5")]))).resolvedModel))) :=
  C4_mapping_rewrites_body ⟨false, some mapperFix, true, gpnFix⟩ "gpt-5"
    (some (Json.jobj [("model", Json.jstr "gpt-5")])) (by rfl)

/-- Claim C5 is refuted as stated: on a LOCAL_PROVIDER route for a suffixed
request the tracked resolved model is the normalized base name, which differs
from the requested model even though no mapping was applied
(fallback_handlers_cn.go:218 initializes `resolvedModel` to
`normalizedModel`, and line 302 reports it). -/
theorem C5_counterexample :
    (WrapHandlerDecide ⟨false, none, false, fun _ => ["claude-oauth"]⟩
      "gpt-5(xhigh)" none).routeType = AmpRouteType.localProvider ∧
    (WrapHandlerDecide ⟨false, none, false, fun _ => ["claude-oauth"]⟩
      "gpt-5(xhigh)" none).resolvedModel = "gpt-5" ∧
    (WrapHandlerDecide ⟨false, none, false, fun _ => ["claude-oauth"]⟩
      "gpt-5(xhigh)" none).requestedModel = "gpt-5(xhigh)" ∧
    ("gpt-5" : String) ≠ "gpt-5(xhigh)" :=
  ⟨rfl, rfl, rfl, by decide⟩

/-- Claim C5 (amended): the resolved model equals the mapped model returned by
the resolver when the outcome is MODEL_MAPPING and the normalized base name of
the requested model otherwise (so on LOCAL_PROVIDER it differs from the
requested model exactly when the request carried a reasoning suffix);
providers are non-empty iff the outcome is LOCAL_PROVIDER or MODEL_MAPPING. -/
theorem C5_amended_resolved_model_invariant (fh : FallbackHandler) (m : String)
    (body : Option Json) :
    ((WrapHandlerDecide fh m body).routeType ≠ AmpRouteType.modelMapping →
      (WrapHandlerDecide fh m body).resolvedModel = (ParseSuffix m).ModelName) ∧
    ((WrapHandlerDecide fh m body).routeType = AmpRouteType.modelMapping →
      ∃ provs, resolveMappedModel fh m ((ParseSuffix m).ModelName) (thinkingSuffixOf m) =
        some ((WrapHandlerDecide fh m body).resolvedModel, provs)) ∧
    ((WrapHandlerDecide fh m body).providers ≠ [] ↔
      (WrapHandlerDecide fh m body).routeType = AmpRouteType.localProvider ∨
      (WrapHandlerDecide fh m body).routeType = AmpRouteType.modelMapping) := by
  cases hres : resolveMappedModel fh m ((ParseSuffix m).ModelName) (thinkingSuffixOf m) with
  | some val =>
    obtain ⟨mm, provs⟩ := val
    have hprovs : provs ≠ [] := resolveMappedModel_providers_ne_nil fh m _ _ mm provs hres
    cases hforce : fh.forceModelMappings with
    | true =>
      rw [WrapHandlerDecide_mapping fh m body mm provs hres (Or.inl hforce)]
      refine ⟨fun hcontra => absurd rfl hcontra, fun _ => ⟨provs, rfl⟩, ?_⟩
      simp [hprovs]
    | false =>
      cases hlocal : fh.getProviderName ((ParseSuffix m).ModelName) with
      | nil =>
        rw [WrapHandlerDecide_mapping fh m body mm provs hres (Or.inr hlocal)]
        refine ⟨fun hcontra => absurd rfl hcontra, fun _ => ⟨provs, rfl⟩, ?_⟩
        simp [hprovs]
      | cons p ps =>
        rw [WrapHandlerDecide_local fh m body (by simp [hlocal]) (Or.inl hforce)]
        refine ⟨fun _ => rfl, fun hcontra => absurd hcontra (by simp), ?_⟩
        simp [hlocal]
  | none =>
    cases hlocal : fh.getProviderName ((ParseSuffix m).ModelName) with
    | cons p ps =>
      rw [WrapHandlerDecide_local fh m body (by simp [hlocal]) (Or.inr hres)]
      refine ⟨fun _ => rfl, fun hcontra => absurd hcontra (by simp), ?_⟩
      simp [hlocal]
    | nil =>
      rw [WrapHandlerDecide_no_providers fh m body hres hlocal]
      cases hproxy : fh.hasProxy <;>
        exact ⟨fun _ => rfl, fun hcontra => absurd hcontra (by simp [hproxy]), by simp [hproxy]⟩

theorem C5_witness :
    (WrapHandlerDecide ⟨false, none, false, fun _ => ["claude-oauth"]⟩
      "gpt-5(xhigh)" none).resolvedModel = "gpt-5" :=
  ((C5_amended_resolved_model_invariant ⟨false, none, false, fun _ => ["claude-oauth"]⟩
    "gpt-5(xhigh)" none).1 (by decide)).trans (by decide)

/-- Claim C6 is refuted as stated: `rewriter.Flush()` at
fallback_handlers_cn.go:298 is not deferred, so a downstream handler that
panics unwinds past it and the buffered output is never flushed on that exit
path (zero flushes instead of exactly one). -/
theorem C6_counterexample :
    (runMappingHandlerCall (fun t => (HandlerOutcome.panicked, t)) ⟨0⟩).1 =
      HandlerOutcome.panicked ∧
    (runMappingHandlerCall (fun t => (HandlerOutcome.panicked, t)) ⟨0⟩).2.flushes = 0 ∧
    (runMappingHandlerCall (fun t => (HandlerOutcome.panicked, t)) ⟨0⟩).2.flushes ≠ 1 :=
  ⟨rfl, rfl, by decide⟩

/-- Claim C6 (amended): on a MODEL_MAPPING route the wrapper's buffered output
is flushed exactly once whenever the wrapped downstream handler returns
normally (which covers early and error returns in Go); when the handler
panics, the flush call is skipped because it is not deferred. -/
theorem C6_amended_flush_on_normal_exit
    (handler : RewriterState → HandlerOutcome × RewriterState) (s : RewriterState)
    (hnoflush : ∀ t, (handler t).2.flushes = t.flushes) :
    ((runMappingHandlerCall handler s).1 = HandlerOutcome.normal →
      (runMappingHandlerCall handler s).2.flushes = s.flushes + 1) ∧
    ((runMappingHandlerCall handler s).1 = HandlerOutcome.panicked →
      (runMappingHandlerCall handler s).2.flushes = s.flushes) := by
  have h := hnoflush s
  cases hh : handler s with
  | mk o s1 =>
    rw [hh] at h
    have h2 : s1.flushes = s.flushes := h
    cases o <;> simp [runMappingHandlerCall, hh, h2]

theorem C6_witness :
    (runMappingHandlerCall (fun t => (HandlerOutcome.normal, t)) ⟨0⟩).2.flushes = 0 + 1 :=
  (C6_amended_flush_on_normal_exit (fun t => (HandlerOutcome.normal, t)) ⟨0⟩
    (fun _ => rfl)).1 rfl

/-- Claim C7: when the requested model parses as `base(s)`, the resolver's
candidate model re-attaches `(s)` to the mapped target unless the target
already declares its own parenthesized suffix, in which case the target is
used unchanged. -/
theorem C7_suffix_reattachment (m base target s : String)
    (hm : ParseSuffix m = ⟨base, true, s⟩) :
    attachThinkingSuffix target (thinkingSuffixOf m) =
      (if (ParseSuffix target).HasSuffix then target else target ++ "(" ++ s ++ ")") := by
  have hsuf : thinkingSuffixOf m = "(" ++ s ++ ")" := by
    simp [thinkingSuffixOf, hm]
  rw [hsuf]
  cases ht : (ParseSuffix target).HasSuffix with
  | true => simp [attachThinkingSuffix, ht]
  | false =>
    have hcond : ("(" ++ s ++ ")") ≠ "" ∧ (ParseSuffix target).HasSuffix = false :=
      ⟨parenWrap_ne_empty s, ht⟩
    unfold attachThinkingSuffix
    rw [if_pos hcond, if_neg (by simp [ht])]
    simp [String.append_assoc]

theorem C7_witness :
    attachThinkingSuffix "local-model-a" (thinkingSuffixOf "gpt-5(xhigh)") =
      "local-model-a(xhigh)" ∧
    attachThinkingSuffix "o3(high)" (thinkingSuffixOf "gpt-5(xhigh)") = "o3(high)" :=
  ⟨(C7_suffix_reattachment "gpt-5(xhigh)" "gpt-5" "local-model-a" "xhigh" (by decide)).trans
      (by decide),
    (C7_suffix_reattachment "gpt-5(xhigh)" "gpt-5" "o3(high)" "xhigh" (by decide)).trans
      (by decide)⟩

/-- Claim C8: a string-typed top-level `model` JSON field always wins over the
colon-delimited action hint and the `/models/` path hint. -/
theorem C8_json_model_field_wins (body : Option Json) (actionParam pathParam jm : String)
    (h : getField body "model" = some (Json.jstr jm)) :
    extractModelFromRequest body actionParam pathParam = jm := by
  unfold extractModelFromRequest
  rw [h]

theorem C8_witness :
    extractModelFromRequest (some (Json.jobj [("model", Json.jstr "claude-opus")]))
      "gemini-pro:generateContent"
      "/publishers/google/models/gemini-flash:streamGenerateContent" = "claude-opus" ∧
    extractFromAction "gemini-pro:generateContent" = some "gemini-pro" ∧
    extractFromPath "/publishers/google/models/gemini-flash:streamGenerateContent" =
      some "gemini-flash" :=
  ⟨C8_json_model_field_wins (some (Json.jobj [("model", Json.jstr "claude-opus")]))
      "gemini-pro:generateContent"
      "/publishers/google/models/gemini-flash:streamGenerateContent" "claude-opus" rfl,
    by decide, by decide⟩

/-- Claim C9: with no local providers, no usable mapping and no forwarding
proxy, the outcome is NO_PROVIDER and the wrapped handler runs on the
untouched body; the routing core emits no error response itself. -/
theorem C9_no_provider_passthrough (fh : FallbackHandler) (m : String) (body : Option Json)
    (hlocal : fh.getProviderName ((ParseSuffix m).ModelName) = [])
    (hres : resolveMappedModel fh m ((ParseSuffix m).ModelName) (thinkingSuffixOf m) = none)
    (hproxy : fh.hasProxy = false) :
    (WrapHandlerDecide fh m body).routeType = AmpRouteType.noProvider ∧
    (WrapHandlerDecide fh m body).handlerCalled = true ∧
    (WrapHandlerDecide fh m body).outBody = body ∧
    (WrapHandlerDecide fh m body).proxied = false := by
  rw [WrapHandlerDecide_no_providers fh m body hres hlocal]
  simp [hproxy]

theorem C9_witness :
    (WrapHandlerDecide ⟨false, none, false, fun _ => []⟩ "claude-x"
      (some (Json.jobj [("model", Json.jstr "claude-x")]))).routeType =
        AmpRouteType.noProvider ∧
    (WrapHandlerDecide ⟨false, none, false, fun _ => []⟩ "claude-x"
      (some (Json.jobj [("model", Json.jstr "claude-x")]))).handlerCalled = true ∧
    (WrapHandlerDecide ⟨false, none, false, fun _ => []⟩ "claude-x"
      (some (Json.jobj [("model", Json.jstr "claude-x")]))).outBody =
        some (Json.jobj [("model", Json.jstr "claude-x")]) ∧
    (WrapHandlerDecide ⟨false, none, false, fun _ => []⟩ "claude-x"
      (some (Json.jobj [("model", Json.jstr "claude-x")]))).proxied = false :=
  C9_no_provider_passthrough ⟨false, none, false, fun _ => []⟩ "claude-x"
    (some (Json.jobj [("model", Json.jstr "claude-x")])) rfl rfl rfl

/-- Claim C10: a whitespace-only (non-empty) mapping on the raw requested name
is trimmed to nothing only after the lookup choice, so it returns no mapping
and masks any mapping registered for the normalized base name; an
empty-string mapping on the raw name instead falls through to the base-name
mapping. -/
theorem C10_whitespace_mapping_masks (fh : FallbackHandler) (f : String → String)
    (m suf : String) (hmapper : fh.modelMapper = some f) :
    (f m ≠ "" → trimSpace (f m) = "" →
      resolveMappedModel fh m ((ParseSuffix m).ModelName) suf = none) ∧
    (f m = "" →
      resolveMappedModel fh m ((ParseSuffix m).ModelName) suf =
        resolveFromMapped fh (f ((ParseSuffix m).ModelName)) suf) := by
  constructor
  · intro hne hws
    have hlk : mappedLookup fh m ((ParseSuffix m).ModelName) = f m := by
      simp [mappedLookup, hmapper, hne]
    simp only [resolveMappedModel, hmapper, hlk, resolveFromMapped, hws]
    simp
  · intro h0
    have hlk : mappedLookup fh m ((ParseSuffix m).ModelName) = f ((ParseSuffix m).ModelName) := by
      simp [mappedLookup, hmapper, h0]
    simp only [resolveMappedModel, hmapper, hlk]

theorem C10_witness :
    resolveMappedModel ⟨false, some mapperWsFix, false, gpnAllFix⟩ "m-raw(high)"
      ((ParseSuffix "m-raw(high)").ModelName) (thinkingSuffixOf "m-raw(high)") = none ∧
    resolveMappedModel ⟨false, some mapperEmptyRawFix, false, gpnAllFix⟩ "m-raw(high)"
        ((ParseSuffix "m-raw(high)").ModelName) (thinkingSuffixOf "m-raw(high)") =
      resolveFromMapped ⟨false, some mapperEmptyRawFix, false, gpnAllFix⟩
        (mapperEmptyRawFix ((ParseSuffix "m-raw(high)").ModelName))
        (thinkingSuffixOf "m-raw(high)") :=
  ⟨(C10_whitespace_mapping_masks ⟨false, some mapperWsFix, false, gpnAllFix⟩ mapperWsFix
      "m-raw(high)" (thinkingSuffixOf "m-raw(high)") rfl).1 (by decide) (by decide),
    (C10_whitespace_mapping_masks ⟨false, some mapperEmptyRawFix, false, gpnAllFix⟩
      mapperEmptyRawFix "m-raw(high)" (thinkingSuffixOf "m-raw(high)") rfl).2 (by decide)⟩
